import Mathlib

/-!
Verification of the fectl process supervisor core.

The worker lifecycle state machine is translated from `src/src/worker.rs`;
the control-plane frame codec from `src/client/client.rs`.  Support modules
of the repository that are not part of the provided sources (`event.rs`,
`process.rs`, `master_types.rs`) are modelled from the specification, and
each such definition is marked in its doc comment.

Conventions of the embedding:
  - pids are `Nat`;
  - instants (`std::time::Instant`) are `Nat` nanoseconds; `Duration::new(s, 0)`
    becomes `durationSecs s`; `now.duration_since(started)` becomes truncated
    subtraction `now - started` (the master only ever measures a later instant
    against an earlier one);
  - the `u16` field `restarts` is a `Nat` reduced `% 65536` on increment;
  - side effects (messages sent to process actors, `Process::start` spawns)
    are returned as an explicit `List Cmd` in program order;
  - `Process::start` is nondeterministic (fresh pid from the OS): operations
    that may spawn take the freshly spawned `ProcessInfo` as a parameter.
-/

namespace Fectl

/-- Modelled from the spec: the event-state tags of `event.rs` (not under
`src/`); the variants are exactly the ones used by `worker.rs`. -/
inductive State where
  | Starting
  | Running
  | Reloading
  | Restarting
  | StoppingOld
  | Stopping
  | Stopped
  | Failed
  | ReloadFailed
  | RestartFailed
  | Paused
deriving DecidableEq, Repr

/-- Translated from `process.rs`'s `ProcessError` as listed in spec section 4.4
(the file is not under `src/`): `ExitCode(i32)`, `Signaled(sig)`,
`StartupTimeout`, `HeartbeatFailed`, `ConfigError(string)`, `PipeError`.
Strings are byte lists. -/
inductive ProcessError where
  | ExitCode (code : Int)
  | Signaled (sig : Nat)
  | StartupTimeout
  | HeartbeatFailed
  | ConfigError (msg : List Nat)
  | PipeError
deriving DecidableEq, Repr

/-- Modelled from the spec: the `Reason` tags of `event.rs` (not under
`src/`); the variants are the ones used by `worker.rs`, plus `fromError`
standing for the `Reason::from(&ProcessError)` conversion. -/
inductive Reason where
  | None
  | WorkerRequest
  | ReloadAftreTimeout
  | RestartFailedRunningWorker
  | RestartFailedStartingWorker
  | NewProcessDied
  | RestoreAftreFailed
  | fromError (err : ProcessError)
deriving DecidableEq, Repr

/-- Modelled from the spec: an event of `event.rs` (not under `src/`):
monotonic timestamp, state tag, reason tag, optional pid. -/
structure Event where
  time : Nat
  state : State
  reason : Reason
  pid : Option Nat
deriving DecidableEq, Repr

/-- Modelled from the spec: the bounded event ring of `event.rs` (not under
`src/`): fixed capacity, append-on-write, oldest-dropped on overflow.
`entries` is kept newest-first; chronological iteration is `entries.reverse`. -/
structure Events where
  capacity : Nat
  entries : List Event
deriving DecidableEq, Repr

def Events.new (capacity : Nat) : Events := ⟨capacity, []⟩

/-- Modelled from the spec: `Events::add(state, reason, pid)` of `event.rs`:
append the event (timestamped with the current instant), dropping the oldest
entry on overflow. -/
def Events.add (e : Events) (st : State) (reason : Reason) (pid : Option Nat)
    (time : Nat) : Events :=
  ⟨e.capacity, (({ time, state := st, reason, pid } : Event) :: e.entries).take e.capacity⟩

/-- The commands a `Worker` dispatches to `Process` actors, and the spawn of a
fresh child via `Process::start`; names follow `process.rs`'s message types as
used by `worker.rs`. -/
inductive Cmd where
  | StartProcess (pid : Nat)
  | StopProcess (pid : Nat)
  | QuitProcess (pid : Nat) (graceful : Bool)
  | PauseProcess (pid : Nat)
  | ResumeProcess (pid : Nat)
  | Spawn (pid : Nat)
deriving DecidableEq, Repr

/-- `ProcessInfo` from `worker.rs`: a pid and an optional handle to the process
actor; `addr` records whether the handle is present. -/
structure ProcessInfo where
  pid : Nat
  addr : Bool
deriving DecidableEq, Repr

/-- `ProcessInfo::stop`: forward `StopProcess` when a handle is attached. -/
def ProcessInfo.stop (p : ProcessInfo) : List Cmd :=
  if p.addr then [Cmd.StopProcess p.pid] else []

/-- `ProcessInfo::quit`: forward `QuitProcess(graceful)` when a handle is attached. -/
def ProcessInfo.quit (p : ProcessInfo) (graceful : Bool) : List Cmd :=
  if p.addr then [Cmd.QuitProcess p.pid graceful] else []

/-- `ProcessInfo::start`: forward `StartProcess` when a handle is attached. -/
def ProcessInfo.start (p : ProcessInfo) : List Cmd :=
  if p.addr then [Cmd.StartProcess p.pid] else []

/-- `ProcessInfo::pause`: forward `PauseProcess` when a handle is attached. -/
def ProcessInfo.pause (p : ProcessInfo) : List Cmd :=
  if p.addr then [Cmd.PauseProcess p.pid] else []

/-- `ProcessInfo::resume`: forward `ResumeProcess` when a handle is attached. -/
def ProcessInfo.resume (p : ProcessInfo) : List Cmd :=
  if p.addr then [Cmd.ResumeProcess p.pid] else []

/-- `WorkerState` from `worker.rs`. -/
inductive WorkerState where
  | Initial
  | Starting (p : ProcessInfo)
  | Reloading (p old : ProcessInfo)
  | Restarting (p old : ProcessInfo)
  | Running (p : ProcessInfo)
  | StoppingOld (p old : ProcessInfo)
  | Stopping (p : ProcessInfo)
  | Failed
  | Stopped
deriving DecidableEq, Repr

/-- The slice of `ServiceConfig` (`config.rs`) the worker machine consults:
`restarts`, the number of restarts before marking the worker as failed
(a `u16` in the source). -/
structure ServiceConfig where
  restarts : Nat
deriving DecidableEq, Repr

/-- `WorkerMessage` from `worker.rs`. -/
inductive WorkerMessage where
  | forked
  | loaded
  | reload
  | restart
  | cfgerror (msg : List Nat)
  | hb
deriving DecidableEq, Repr

/-- `Worker` from `worker.rs` (the `idx` and back-reference to the service
play no role in the transitions and are omitted). -/
structure Worker where
  cfg : ServiceConfig
  state : WorkerState
  events : Events
  restore_from_fail : Bool
  started : Nat
  restarts : Nat
deriving DecidableEq, Repr

/-- `Duration::new(s, 0)` in nanoseconds. -/
def durationSecs (s : Nat) : Nat := s * 1000000000

/-- `Worker::start` (`worker.rs` lines 114-125). -/
def Worker.start (w : Worker) (fresh : ProcessInfo) (reason : Reason) (now : Nat) :
    Worker × List Cmd :=
  match w.state with
  | WorkerState.Initial | WorkerState.Stopped | WorkerState.Failed =>
      ({ w with state := WorkerState.Starting fresh,
                events := w.events.add State.Starting reason (some fresh.pid) now },
       [Cmd.Spawn fresh.pid])
  | _ => (w, [])

/-- `Worker::loaded` (`worker.rs` lines 127-168). -/
def Worker.loaded (w : Worker) (pid : Nat) (now : Nat) : Worker × List Cmd :=
  match w.state with
  | WorkerState.Starting p =>
      if p.pid = pid then
        ({ w with restarts := 0,
                  events := w.events.add State.Running Reason.None (some p.pid) now,
                  state := WorkerState.Running p,
                  restore_from_fail := false },
         p.start)
      else
        ({ w with state := WorkerState.Starting p }, [])
  | WorkerState.Reloading p old =>
      if p.pid = pid then
        ({ w with restarts := 0,
                  events := w.events.add State.StoppingOld Reason.None (some old.pid) now,
                  state := WorkerState.StoppingOld p old },
         old.stop ++ p.start)
      else
        ({ w with state := WorkerState.Reloading p old }, [])
  | WorkerState.Restarting p old =>
      if p.pid = pid then
        ({ w with restarts := 0,
                  events := w.events.add State.StoppingOld Reason.None (some old.pid) now,
                  state := WorkerState.StoppingOld p old },
         old.quit true ++ p.start)
      else
        ({ w with state := WorkerState.Restarting p old }, [])
  | s => ({ w with state := s }, [])

/-- `Worker::is_running` (`worker.rs` lines 170-175). -/
def Worker.is_running (w : Worker) : Bool :=
  match w.state with
  | WorkerState.Running _ => true
  | _ => false

/-- `Worker::is_failed` (`worker.rs` lines 177-183). -/
def Worker.is_failed (w : Worker) : Bool :=
  match w.state with
  | WorkerState.Failed => true
  | WorkerState.Running _ => w.restore_from_fail
  | _ => false

/-- `Worker::is_stopped` (`worker.rs` lines 185-190). -/
def Worker.is_stopped (w : Worker) : Bool :=
  match w.state with
  | WorkerState.Stopped => true
  | _ => false

/-- `Worker::pid` (`worker.rs` lines 192-198). -/
def Worker.pid (w : Worker) : Option Nat :=
  match w.state with
  | WorkerState.Running p => some p.pid
  | WorkerState.StoppingOld p _ => some p.pid
  | _ => none

/-- `Worker::reload` (`worker.rs` lines 200-226). -/
def Worker.reload (w : Worker) (fresh : ProcessInfo) (graceful : Bool) (reason : Reason)
    (now : Nat) : Worker × List Cmd :=
  match w.state with
  | WorkerState.Running process =>
      if graceful then
        ({ w with events := w.events.add State.Reloading reason (some process.pid) now,
                  state := WorkerState.Reloading fresh process },
         [Cmd.Spawn fresh.pid])
      else
        ({ w with events := w.events.add State.Restarting reason (some process.pid) now,
                  state := WorkerState.Restarting fresh process },
         [Cmd.Spawn fresh.pid])
  | WorkerState.Failed | WorkerState.Stopped =>
      Worker.start { w with restarts := 0, state := WorkerState.Initial } fresh reason now
  | s => ({ w with state := s }, [])

/-- `Worker::stop` (`worker.rs` lines 228-268). -/
def Worker.stop (w : Worker) (reason : Reason) (now : Nat) : Worker × List Cmd :=
  match w.state with
  | WorkerState.Initial | WorkerState.Stopped | WorkerState.Failed =>
      ({ w with state := WorkerState.Stopped,
                events := w.events.add State.Stopped reason none now }, [])
  | WorkerState.Starting process =>
      ({ w with state := WorkerState.Stopping process,
                events := w.events.add State.Stopping reason (some process.pid) now },
       process.quit true)
  | WorkerState.Stopping process =>
      ({ w with state := WorkerState.Stopping process }, [])
  | WorkerState.StoppingOld process old =>
      ({ w with state := WorkerState.Stopping process,
                events := w.events.add State.Stopping reason (some process.pid) now },
       old.quit true ++ process.stop)
  | WorkerState.Running process =>
      ({ w with state := WorkerState.Stopping process,
                events := w.events.add State.Stopping reason (some process.pid) now },
       process.stop)
  | WorkerState.Reloading process old =>
      ({ w with state := WorkerState.Stopping old,
                events := w.events.add State.Stopping reason (some old.pid) now },
       process.quit true ++ old.stop)
  | WorkerState.Restarting process old =>
      ({ w with state := WorkerState.Stopping old,
                events := w.events.add State.Stopping reason (some old.pid) now },
       process.quit true ++ old.stop)

/-- `Worker::quit` (`worker.rs` lines 270-311). -/
def Worker.quit (w : Worker) (reason : Reason) (now : Nat) : Worker × List Cmd :=
  match w.state with
  | WorkerState.Initial | WorkerState.Stopped | WorkerState.Failed =>
      ({ w with state := WorkerState.Stopped,
                events := w.events.add State.Stopped reason none now }, [])
  | WorkerState.Starting process =>
      ({ w with state := WorkerState.Stopping process,
                events := w.events.add State.Stopping reason (some process.pid) now },
       process.quit true)
  | WorkerState.Stopping process =>
      ({ w with state := WorkerState.Stopping process }, [])
  | WorkerState.StoppingOld process old =>
      ({ w with state := WorkerState.Stopping process,
                events := w.events.add State.StoppingOld reason (some process.pid) now },
       old.quit true ++ process.quit true)
  | WorkerState.Running process =>
      ({ w with state := WorkerState.Stopping process,
                events := w.events.add State.Stopping reason (some process.pid) now },
       process.quit true)
  | WorkerState.Reloading process old =>
      ({ w with state := WorkerState.Stopping old,
                events := w.events.add State.Stopping reason (some old.pid) now },
       process.quit true ++ old.quit true)
  | WorkerState.Restarting process old =>
      ({ w with state := WorkerState.Stopping old,
                events := w.events.add State.Stopping reason (some old.pid) now },
       process.quit true ++ old.quit true)

/-- `Worker::message` (`worker.rs` lines 313-326). -/
def Worker.message (w : Worker) (pid : Nat) (msg : WorkerMessage) (fresh : ProcessInfo)
    (now : Nat) : Worker × List Cmd :=
  let doReload : Bool :=
    match w.state with
    | WorkerState.Running process => process.pid == pid
    | _ => false
  if doReload then
    match msg with
    | WorkerMessage.reload => w.reload fresh true Reason.WorkerRequest now
    | WorkerMessage.restart => w.reload fresh false Reason.WorkerRequest now
    | _ => (w, [])
  else (w, [])

/-- `Worker::pause` (`worker.rs` lines 328-333). -/
def Worker.pause (w : Worker) (reason : Reason) (now : Nat) : Worker × List Cmd :=
  match w.state with
  | WorkerState.Running process =>
      ({ w with events := w.events.add State.Paused reason (some process.pid) now },
       process.pause)
  | _ => (w, [])

/-- `Worker::resume` (`worker.rs` lines 335-340). -/
def Worker.resume (w : Worker) (reason : Reason) (now : Nat) : Worker × List Cmd :=
  match w.state with
  | WorkerState.Running process =>
      ({ w with events := w.events.add State.Running reason (some process.pid) now },
       process.resume)
  | _ => (w, [])

/-- The fast-restart accounting block repeated in `Worker::exited`
(`worker.rs` lines 383-394, 426-437, 485-498): on `ExitCode(0)` more than
`thresholdSecs` after `started`, reset `started` and `restarts`; otherwise
increment the `u16` counter. -/
def Worker.fastRestartCheck (w : Worker) (err : ProcessError) (thresholdSecs : Nat)
    (now : Nat) : Worker :=
  if err = ProcessError.ExitCode 0 then
    if durationSecs thresholdSecs < now - w.started then
      { w with started := now, restarts := 0 }
    else
      { w with restarts := (w.restarts + 1) % 65536 }
  else
    { w with restarts := (w.restarts + 1) % 65536 }

/-- `Worker::exited` (`worker.rs` lines 342-559). -/
def Worker.exited (w : Worker) (pid : Nat) (err : ProcessError) (fresh : ProcessInfo)
    (now : Nat) : Worker × List Cmd :=
  match w.state with
  | WorkerState.Running process =>
      if process.pid = pid then
        if err = ProcessError.StartupTimeout then
          let w1 := { w with state := WorkerState.Running process,
                             events := w.events.add State.Running (Reason.fromError err)
                               (some pid) now,
                             restore_from_fail := true }
          w1.reload fresh false Reason.ReloadAftreTimeout now
        else
          let w1 := { w with started := now,
                             state := WorkerState.Initial,
                             events := w.events.add State.Stopped (Reason.fromError err)
                               (some pid) now }
          let r := w1.start fresh Reason.RestartFailedRunningWorker now
          (r.1, process.quit false ++ r.2)
      else
        ({ w with state := WorkerState.Running process }, [])
  | WorkerState.Starting process =>
      if process.pid = pid then
        let w1 := w.fastRestartCheck err 10 now
        let w2 := { w1 with events := w1.events.add State.Failed (Reason.fromError err)
                              (some pid) now }
        if w2.restarts < w2.cfg.restarts then
          let w3 := { w2 with state := WorkerState.Initial }
          let r := w3.start fresh Reason.RestartFailedStartingWorker now
          (r.1, process.quit false ++ r.2)
        else
          ({ w2 with state := WorkerState.Failed }, [])
      else
        ({ w with state := WorkerState.Starting process }, [])
  | WorkerState.Reloading process old =>
      if process.pid = pid then
        let w1 := w.fastRestartCheck err 3 now
        let w2 := { w1 with events := w1.events.add State.ReloadFailed (Reason.fromError err)
                              (some pid) now }
        if w2.restarts < w2.cfg.restarts then
          ({ w2 with state := WorkerState.Reloading fresh old }, [Cmd.Spawn fresh.pid])
        else
          ({ w2 with restore_from_fail := true,
                     events := w2.events.add State.Running Reason.RestoreAftreFailed
                       (some old.pid) now,
                     state := WorkerState.Running old }, [])
      else if old.pid = pid then
        ({ w with restore_from_fail := false,
                  events := (w.events.add State.Stopped Reason.None (some pid) now).add
                    State.Running Reason.None (some process.pid) now,
                  state := WorkerState.Running process }, [])
      else
        ({ w with state := WorkerState.Reloading process old }, [])
  | WorkerState.Restarting process old =>
      if process.pid = pid then
        let w1 := w.fastRestartCheck err 3 now
        let w2 := { w1 with events := w1.events.add State.RestartFailed (Reason.fromError err)
                              (some pid) now }
        if w2.restarts < w2.cfg.restarts then
          ({ w2 with state := WorkerState.Restarting fresh old }, [Cmd.Spawn fresh.pid])
        else
          ({ w2 with restore_from_fail := true,
                     events := w2.events.add State.Running Reason.RestoreAftreFailed
                       (some old.pid) now,
                     state := WorkerState.Running old }, [])
      else if old.pid = pid then
        ({ w with restore_from_fail := false,
                  events := (w.events.add State.Stopped Reason.None (some pid) now).add
                    State.Running Reason.None (some process.pid) now,
                  state := WorkerState.Running process }, [])
      else
        ({ w with state := WorkerState.Restarting process old }, [])
  | WorkerState.StoppingOld process old =>
      if process.pid = pid then
        let w1 := { w with restarts := (w.restarts + 1) % 65536,
                           state := WorkerState.Initial,
                           events := w.events.add State.Failed (Reason.fromError err)
                             (some pid) now }
        let r := w1.start fresh Reason.NewProcessDied now
        (r.1, old.quit false ++ r.2)
      else if old.pid = pid then
        ({ w with restore_from_fail := false,
                  events := (w.events.add State.Stopped Reason.None (some pid) now).add
                    State.Running Reason.None (some process.pid) now,
                  state := WorkerState.Running process }, [])
      else
        ({ w with state := WorkerState.StoppingOld process old }, [])
  | WorkerState.Stopping process =>
      if process.pid = pid then
        ({ w with state := WorkerState.Stopped,
                  events := w.events.add State.Stopped (Reason.fromError err) (some pid) now },
         [])
      else
        ({ w with state := WorkerState.Stopping process }, [])
  | s => ({ w with state := s }, [])

/-! ## Control-plane message sets and serialization

`master_types.rs` and the `serde_json` serialization are not under `src/`.
The message sets are modelled from spec section 4.2; the JSON serialization is
modelled as an injective byte serialization with an explicit parser (the
parser, like `serde_json::from_slice`, rejects trailing bytes).  Payload
lengths of the modelled serialization grow with the embedded strings and
vectors, as JSON payloads do. -/

/-- Unary encoding of a natural number, the length device of the modelled
serialization. -/
def encNat (n : Nat) : List Nat := List.replicate n 1 ++ [0]

/-- Parser for `encNat`. -/
def parseNat : List Nat → Option (Nat × List Nat)
  | [] => none
  | 0 :: rest => some (0, rest)
  | 1 :: rest =>
      match parseNat rest with
      | some (n, r) => some (n + 1, r)
      | none => none
  | _ :: _ => none

/-- Length-prefixed byte-list (string) encoding. -/
def encBytes (xs : List Nat) : List Nat := encNat xs.length ++ xs

/-- Parser for `encBytes`. -/
def parseBytes (src : List Nat) : Option (List Nat × List Nat) :=
  match parseNat src with
  | some (n, r) => if n ≤ r.length then some (r.take n, r.drop n) else none
  | none => none

/-- Sign-and-magnitude integer encoding. -/
def encInt (i : Int) : List Nat :=
  (if i < 0 then 1 else 0) :: encNat i.natAbs

/-- Parser for `encInt`. -/
def parseInt : List Nat → Option (Int × List Nat)
  | 0 :: rest =>
      match parseNat rest with
      | some (n, r) => some ((n : Int), r)
      | none => none
  | 1 :: rest =>
      match parseNat rest with
      | some (n, r) => some (-(n : Int), r)
      | none => none
  | _ => none

/-- Tag byte of a `State`. -/
def encState (s : State) : List Nat :=
  match s with
  | State.Starting => [0]
  | State.Running => [1]
  | State.Reloading => [2]
  | State.Restarting => [3]
  | State.StoppingOld => [4]
  | State.Stopping => [5]
  | State.Stopped => [6]
  | State.Failed => [7]
  | State.ReloadFailed => [8]
  | State.RestartFailed => [9]
  | State.Paused => [10]

/-- Parser for `encState`. -/
def parseState : List Nat → Option (State × List Nat)
  | 0 :: r => some (State.Starting, r)
  | 1 :: r => some (State.Running, r)
  | 2 :: r => some (State.Reloading, r)
  | 3 :: r => some (State.Restarting, r)
  | 4 :: r => some (State.StoppingOld, r)
  | 5 :: r => some (State.Stopping, r)
  | 6 :: r => some (State.Stopped, r)
  | 7 :: r => some (State.Failed, r)
  | 8 :: r => some (State.ReloadFailed, r)
  | 9 :: r => some (State.RestartFailed, r)
  | 10 :: r => some (State.Paused, r)
  | _ => none

/-- Serialization of a `ProcessError`. -/
def encErr : ProcessError → List Nat
  | ProcessError.ExitCode i => 0 :: encInt i
  | ProcessError.Signaled s => 1 :: encNat s
  | ProcessError.StartupTimeout => [2]
  | ProcessError.HeartbeatFailed => [3]
  | ProcessError.ConfigError m => 4 :: encBytes m
  | ProcessError.PipeError => [5]

/-- Parser for `encErr`. -/
def parseErr : List Nat → Option (ProcessError × List Nat)
  | 0 :: r =>
      match parseInt r with
      | some (i, r2) => some (ProcessError.ExitCode i, r2)
      | none => none
  | 1 :: r =>
      match parseNat r with
      | some (s, r2) => some (ProcessError.Signaled s, r2)
      | none => none
  | 2 :: r => some (ProcessError.StartupTimeout, r)
  | 3 :: r => some (ProcessError.HeartbeatFailed, r)
  | 4 :: r =>
      match parseBytes r with
      | some (m, r2) => some (ProcessError.ConfigError m, r2)
      | none => none
  | 5 :: r => some (ProcessError.PipeError, r)
  | _ => none

/-- Serialization of a `Reason`. -/
def encReason : Reason → List Nat
  | Reason.None => [0]
  | Reason.WorkerRequest => [1]
  | Reason.ReloadAftreTimeout => [2]
  | Reason.RestartFailedRunningWorker => [3]
  | Reason.RestartFailedStartingWorker => [4]
  | Reason.NewProcessDied => [5]
  | Reason.RestoreAftreFailed => [6]
  | Reason.fromError e => 7 :: encErr e

/-- Parser for `encReason`. -/
def parseReason : List Nat → Option (Reason × List Nat)
  | 0 :: r => some (Reason.None, r)
  | 1 :: r => some (Reason.WorkerRequest, r)
  | 2 :: r => some (Reason.ReloadAftreTimeout, r)
  | 3 :: r => some (Reason.RestartFailedRunningWorker, r)
  | 4 :: r => some (Reason.RestartFailedStartingWorker, r)
  | 5 :: r => some (Reason.NewProcessDied, r)
  | 6 :: r => some (Reason.RestoreAftreFailed, r)
  | 7 :: r =>
      match parseErr r with
      | some (e, r2) => some (Reason.fromError e, r2)
      | none => none
  | _ => none

/-- Serialization of an `Option Nat` (the optional pid string of an event). -/
def encOptNat : Option Nat → List Nat
  | none => [0]
  | some n => 1 :: encNat n

/-- Parser for `encOptNat`. -/
def parseOptNat : List Nat → Option (Option Nat × List Nat)
  | 0 :: r => some (none, r)
  | 1 :: r =>
      match parseNat r with
      | some (n, r2) => some (some n, r2)
      | none => none
  | _ => none

/-- Serialization of an `Event`. -/
def encEvent (e : Event) : List Nat :=
  encNat e.time ++ encState e.state ++ encReason e.reason ++ encOptNat e.pid

/-- Parser for `encEvent`. -/
def parseEvent (src : List Nat) : Option (Event × List Nat) :=
  match parseNat src with
  | some (t, r1) =>
      match parseState r1 with
      | some (st, r2) =>
          match parseReason r2 with
          | some (re, r3) =>
              match parseOptNat r3 with
              | some (p, r4) => some ({ time := t, state := st, reason := re, pid := p }, r4)
              | none => none
          | none => none
      | none => none
  | none => none

/-- Count-prefixed sequence encoding with element encoder `f`. -/
def encSeq (f : α → List Nat) (xs : List α) : List Nat :=
  encNat xs.length ++ (xs.map f).flatten

/-- Parse exactly `n` elements with element parser `g`. -/
def parseCount (g : List Nat → Option (α × List Nat)) : Nat → List Nat →
    Option (List α × List Nat)
  | 0, src => some ([], src)
  | n + 1, src =>
      match g src with
      | some (a, r) =>
          match parseCount g n r with
          | some (as, r2) => some (a :: as, r2)
          | none => none
      | none => none

/-- Parser for `encSeq f`. -/
def parseSeq (g : List Nat → Option (α × List Nat)) (src : List Nat) :
    Option (List α × List Nat) :=
  match parseNat src with
  | some (n, r) => parseCount g n r
  | none => none

/-- Modelled from the spec: the service-state tags carried by
`ServiceStatus` responses (spec sections 3 and 4.2). -/
inductive ServiceStateTag where
  | Loading
  | Running
  | Paused
  | Stopped
  | Failed
deriving DecidableEq, Repr

/-- Serialization of a `ServiceStateTag`. -/
def encSvcState : ServiceStateTag → List Nat
  | ServiceStateTag.Loading => [0]
  | ServiceStateTag.Running => [1]
  | ServiceStateTag.Paused => [2]
  | ServiceStateTag.Stopped => [3]
  | ServiceStateTag.Failed => [4]

/-- Parser for `encSvcState`. -/
def parseSvcState : List Nat → Option (ServiceStateTag × List Nat)
  | 0 :: r => some (ServiceStateTag.Loading, r)
  | 1 :: r => some (ServiceStateTag.Running, r)
  | 2 :: r => some (ServiceStateTag.Paused, r)
  | 3 :: r => some (ServiceStateTag.Stopped, r)
  | 4 :: r => some (ServiceStateTag.Failed, r)
  | _ => none

/-- Modelled from the spec: the control client → master request set of
`master_types.rs` (spec section 4.2); service names are byte lists. -/
inductive MasterRequest where
  | Ping
  | Pid
  | Version
  | Quit
  | Status (name : List Nat)
  | SPid (name : List Nat)
  | Start (name : List Nat)
  | Pause (name : List Nat)
  | Resume (name : List Nat)
  | Reload (name : List Nat)
  | Restart (name : List Nat)
  | Stop (name : List Nat)
deriving DecidableEq, Repr

/-- Modelled from the spec: the JSON serialization of a `MasterRequest`,
abstracted to an injective tag-plus-fields byte serialization. -/
def serializeReq : MasterRequest → List Nat
  | MasterRequest.Ping => [0]
  | MasterRequest.Pid => [1]
  | MasterRequest.Version => [2]
  | MasterRequest.Quit => [3]
  | MasterRequest.Status n => 4 :: encBytes n
  | MasterRequest.SPid n => 5 :: encBytes n
  | MasterRequest.Start n => 6 :: encBytes n
  | MasterRequest.Pause n => 7 :: encBytes n
  | MasterRequest.Resume n => 8 :: encBytes n
  | MasterRequest.Reload n => 9 :: encBytes n
  | MasterRequest.Restart n => 10 :: encBytes n
  | MasterRequest.Stop n => 11 :: encBytes n

/-- Parser for `serializeReq`. -/
def parseReq : List Nat → Option (MasterRequest × List Nat)
  | 0 :: r => some (MasterRequest.Ping, r)
  | 1 :: r => some (MasterRequest.Pid, r)
  | 2 :: r => some (MasterRequest.Version, r)
  | 3 :: r => some (MasterRequest.Quit, r)
  | 4 :: r =>
      match parseBytes r with
      | some (n, r2) => some (MasterRequest.Status n, r2)
      | none => none
  | 5 :: r =>
      match parseBytes r with
      | some (n, r2) => some (MasterRequest.SPid n, r2)
      | none => none
  | 6 :: r =>
      match parseBytes r with
      | some (n, r2) => some (MasterRequest.Start n, r2)
      | none => none
  | 7 :: r =>
      match parseBytes r with
      | some (n, r2) => some (MasterRequest.Pause n, r2)
      | none => none
  | 8 :: r =>
      match parseBytes r with
      | some (n, r2) => some (MasterRequest.Resume n, r2)
      | none => none
  | 9 :: r =>
      match parseBytes r with
      | some (n, r2) => some (MasterRequest.Reload n, r2)
      | none => none
  | 10 :: r =>
      match parseBytes r with
      | some (n, r2) => some (MasterRequest.Restart n, r2)
      | none => none
  | 11 :: r =>
      match parseBytes r with
      | some (n, r2) => some (MasterRequest.Stop n, r2)
      | none => none
  | _ => none

/-- Modelled from the spec: the master → control client response set of
`master_types.rs` (spec section 4.2). -/
inductive MasterResponse where
  | Pong
  | Done
  | Pid (pid : Int)
  | Version (v : List Nat)
  | ServiceStarted
  | ServiceStopped
  | ServiceFailed
  | ServiceStatus (st : ServiceStateTag) (ws : List (Nat × List Event))
  | ServiceWorkerPids (pids : List Nat)
  | ErrorNotReady
  | ErrorUnknownService
  | ErrorServiceStarting
  | ErrorServiceReloading
  | ErrorServiceStopping
deriving DecidableEq, Repr

/-- Serialization of one `(worker_idx, Vec<Event>)` status entry. -/
def encStatusEntry (p : Nat × List Event) : List Nat :=
  encNat p.1 ++ encSeq encEvent p.2

/-- Parser for `encStatusEntry`. -/
def parseStatusEntry (src : List Nat) : Option ((Nat × List Event) × List Nat) :=
  match parseNat src with
  | some (i, r) =>
      match parseSeq parseEvent r with
      | some (evs, r2) => some ((i, evs), r2)
      | none => none
  | none => none

/-- Modelled from the spec: the JSON serialization of a `MasterResponse`,
abstracted to an injective tag-plus-fields byte serialization. -/
def serializeResp : MasterResponse → List Nat
  | MasterResponse.Pong => [0]
  | MasterResponse.Done => [1]
  | MasterResponse.Pid i => 2 :: encInt i
  | MasterResponse.Version v => 3 :: encBytes v
  | MasterResponse.ServiceStarted => [4]
  | MasterResponse.ServiceStopped => [5]
  | MasterResponse.ServiceFailed => [6]
  | MasterResponse.ServiceStatus st ws => 7 :: (encSvcState st ++ encSeq encStatusEntry ws)
  | MasterResponse.ServiceWorkerPids ps => 8 :: encSeq encNat ps
  | MasterResponse.ErrorNotReady => [9]
  | MasterResponse.ErrorUnknownService => [10]
  | MasterResponse.ErrorServiceStarting => [11]
  | MasterResponse.ErrorServiceReloading => [12]
  | MasterResponse.ErrorServiceStopping => [13]

/-- Parser for `serializeResp`. -/
def parseResp : List Nat → Option (MasterResponse × List Nat)
  | 0 :: r => some (MasterResponse.Pong, r)
  | 1 :: r => some (MasterResponse.Done, r)
  | 2 :: r =>
      match parseInt r with
      | some (i, r2) => some (MasterResponse.Pid i, r2)
      | none => none
  | 3 :: r =>
      match parseBytes r with
      | some (v, r2) => some (MasterResponse.Version v, r2)
      | none => none
  | 4 :: r => some (MasterResponse.ServiceStarted, r)
  | 5 :: r => some (MasterResponse.ServiceStopped, r)
  | 6 :: r => some (MasterResponse.ServiceFailed, r)
  | 7 :: r =>
      match parseSvcState r with
      | some (st, r2) =>
          match parseSeq parseStatusEntry r2 with
          | some (ws, r3) => some (MasterResponse.ServiceStatus st ws, r3)
          | none => none
      | none => none
  | 8 :: r =>
      match parseSeq parseNat r with
      | some (ps, r2) => some (MasterResponse.ServiceWorkerPids ps, r2)
      | none => none
  | 9 :: r => some (MasterResponse.ErrorNotReady, r)
  | 10 :: r => some (MasterResponse.ErrorUnknownService, r)
  | 11 :: r => some (MasterResponse.ErrorServiceStarting, r)
  | 12 :: r => some (MasterResponse.ErrorServiceReloading, r)
  | 13 :: r => some (MasterResponse.ErrorServiceStopping, r)
  | _ => none

/-! ## The frame codec (`ClientTransportCodec`, `src/client/client.rs`) -/

/-- `ClientTransportCodec::encode`'s framing (`client.rs` lines 263-275): the
payload length cast to `u16` (`len as u16`, that is `% 65536`), written as two
big-endian bytes, followed by the payload. -/
def frameBytes (payload : List Nat) : List Nat :=
  (payload.length % 65536) / 256 :: (payload.length % 65536) % 256 :: payload

/-- `ClientTransportCodec::encode` (`client.rs` lines 263-275) applied to a
request. -/
def encodeRequest (msg : MasterRequest) : List Nat :=
  frameBytes (serializeReq msg)

/-- The master-side encoder for responses: same framing, per spec section 4.2. -/
def encodeResponse (msg : MasterResponse) : List Nat :=
  frameBytes (serializeResp msg)

/-- The frame layer of `ClientTransportCodec::decode` (`client.rs` lines
281-297): with fewer than 2 buffered bytes, or fewer than `size + 2` bytes
after the big-endian `u16` length `size` is read, return "need more" (`none`,
consuming nothing); otherwise split off the frame, consuming exactly
`size + 2` bytes, and return the payload together with the remaining buffer. -/
def decodeFrame : List Nat → Option (List Nat × List Nat)
  | b0 :: b1 :: rest =>
      let size := 256 * b0 + b1
      if size ≤ rest.length then some (rest.take size, rest.drop size) else none
  | _ => none

/-- The value of the two-byte big-endian length prefix of a frame. -/
def prefixVal : List Nat → Nat
  | b0 :: b1 :: _ => 256 * b0 + b1
  | _ => 0

/-- `ClientTransportCodec::decode` for the request direction: frame layer plus
deserialization; a payload the deserializer rejects is a decode error
(`serde_json::from_slice` rejects malformed or trailing input). -/
def decodeRequest (src : List Nat) : Except Unit (Option (MasterRequest × List Nat)) :=
  match decodeFrame src with
  | none => Except.ok none
  | some (payload, rest) =>
      match parseReq payload with
      | some (v, []) => Except.ok (some (v, rest))
      | _ => Except.error ()

/-- `ClientTransportCodec::decode` (`client.rs` lines 281-297): frame layer
plus deserialization of the response payload. -/
def decodeResponse (src : List Nat) : Except Unit (Option (MasterResponse × List Nat)) :=
  match decodeFrame src with
  | none => Except.ok none
  | some (payload, rest) =>
      match parseResp payload with
      | some (v, []) => Except.ok (some (v, rest))
      | _ => Except.error ()

/-! ## Derived notions and concrete instances used by the verification -/

/-- The number of child processes tracked in a `WorkerState` variant. -/
def WorkerState.numProcs : WorkerState → Nat
  | WorkerState.Initial | WorkerState.Failed | WorkerState.Stopped => 0
  | WorkerState.Starting _ | WorkerState.Running _ | WorkerState.Stopping _ => 1
  | WorkerState.Reloading _ _ | WorkerState.Restarting _ _ | WorkerState.StoppingOld _ _ => 2

/-- Whether the variant is one of the dual-process overlap states. -/
def WorkerState.isOverlap : WorkerState → Bool
  | WorkerState.Reloading _ _ | WorkerState.Restarting _ _ | WorkerState.StoppingOld _ _ => true
  | _ => false

/-- The pid-count invariant, stated after the spec's words: the number of
tracked child pids is at most 2, and it is 2 only in the overlap states
`Reloading`, `Restarting`, `StoppingOld`. -/
def specPidInvariant (s : WorkerState) : Bool :=
  decide (s.numProcs ≤ 2) && (decide (s.numProcs ≠ 2) || s.isOverlap)

/-- A process handle used in concrete instances. -/
def procA : ProcessInfo := { pid := 11, addr := true }

/-- A second process handle used in concrete instances. -/
def procB : ProcessInfo := { pid := 22, addr := true }

/-- A third process handle used in concrete instances. -/
def procC : ProcessInfo := { pid := 33, addr := true }

/-- A concrete worker in a given state, with the default restart limit 3 and a
fresh 50-entry event ring, as built by `Worker::new`. -/
def baseWorker (s : WorkerState) : Worker :=
  { cfg := { restarts := 3 }, state := s, events := Events.new 50,
    restore_from_fail := false, started := 0, restarts := 0 }

/-- A request whose modelled serialization exceeds the `u16` range of the
length prefix. -/
def reqBig : MasterRequest := MasterRequest.Start (List.replicate 65536 0)

/-- A concrete worker mid-reload whose restart budget is already exhausted. -/
def wExhausted : Worker :=
  { cfg := { restarts := 3 }, state := WorkerState.Reloading procA procB,
    events := Events.new 50, restore_from_fail := false, started := 0, restarts := 3 }

/-- Modelled from the spec: `process.rs` (not under `src/`) classifies a
post-load liveness (heartbeat) miss the same way as a startup timeout when it
surfaces the exit to the supervisor (spec section 4.5). -/
def heartbeatMissClassified : ProcessError := ProcessError.StartupTimeout

/-- A concrete worker in `StoppingOld` whose restart limit is 0, so that no
restart budget remains. -/
def wNoBudget : Worker :=
  { cfg := { restarts := 0 }, state := WorkerState.StoppingOld procA procB,
    events := Events.new 50, restore_from_fail := false, started := 0, restarts := 0 }

/-! ## Parser / serializer roundtrip lemmas -/

theorem parseNat_enc (n : Nat) (rest : List Nat) :
    parseNat (encNat n ++ rest) = some (n, rest) := by
  induction n with
  | zero => rfl
  | succ k ih =>
      have h : encNat (k + 1) ++ rest = 1 :: (encNat k ++ rest) := by
        simp [encNat, List.replicate_succ]
      rw [h, parseNat, ih]

theorem parseBytes_enc (xs rest : List Nat) :
    parseBytes (encBytes xs ++ rest) = some (xs, rest) := by
  have h : encBytes xs ++ rest = encNat xs.length ++ (xs ++ rest) := by
    simp [encBytes]
  rw [h, parseBytes, parseNat_enc]
  simp [List.take_left, List.drop_left]

theorem parseInt_enc (i : Int) (rest : List Nat) :
    parseInt (encInt i ++ rest) = some (i, rest) := by
  cases i with
  | ofNat n =>
      have h : encInt (Int.ofNat n) = 0 :: encNat n := by
        simp [encInt, Int.natAbs]
      rw [h]
      simp [parseInt, parseNat_enc]
  | negSucc n =>
      have h : encInt (Int.negSucc n) = 1 :: encNat (n + 1) := by
        simp [encInt, Int.natAbs_negSucc]
      rw [h]
      show (match parseNat (encNat (n + 1) ++ rest) with
            | some (m, r) => some (-(m : Int), r)
            | none => none) = _
      rw [parseNat_enc]
      simp [Int.negSucc_eq]

theorem parseState_enc (s : State) (rest : List Nat) :
    parseState (encState s ++ rest) = some (s, rest) := by
  cases s <;> rfl

theorem parseErr_enc (e : ProcessError) (rest : List Nat) :
    parseErr (encErr e ++ rest) = some (e, rest) := by
  cases e with
  | ExitCode i => simp [encErr, parseErr, parseInt_enc]
  | Signaled s => simp [encErr, parseErr, parseNat_enc]
  | ConfigError m => simp [encErr, parseErr, parseBytes_enc]
  | _ => rfl

theorem parseReason_enc (r : Reason) (rest : List Nat) :
    parseReason (encReason r ++ rest) = some (r, rest) := by
  cases r with
  | fromError e => simp [encReason, parseReason, parseErr_enc]
  | _ => rfl

theorem parseOptNat_enc (p : Option Nat) (rest : List Nat) :
    parseOptNat (encOptNat p ++ rest) = some (p, rest) := by
  cases p with
  | none => rfl
  | some n => simp [encOptNat, parseOptNat, parseNat_enc]

theorem parseEvent_enc (e : Event) (rest : List Nat) :
    parseEvent (encEvent e ++ rest) = some (e, rest) := by
  rw [parseEvent]
  simp only [encEvent, List.append_assoc, parseNat_enc, parseState_enc, parseReason_enc,
    parseOptNat_enc]

theorem parseCount_enc (f : α → List Nat) (g : List Nat → Option (α × List Nat))
    (h : ∀ a rest, g (f a ++ rest) = some (a, rest)) (xs : List α) (rest : List Nat) :
    parseCount g xs.length ((xs.map f).flatten ++ rest) = some (xs, rest) := by
  induction xs with
  | nil => rfl
  | cons a as ih =>
      have hflat : ((a :: as).map f).flatten ++ rest = f a ++ ((as.map f).flatten ++ rest) := by
        simp
      rw [List.length_cons, hflat, parseCount, h]
      simp [ih]

theorem parseSeq_enc (f : α → List Nat) (g : List Nat → Option (α × List Nat))
    (h : ∀ a rest, g (f a ++ rest) = some (a, rest)) (xs : List α) (rest : List Nat) :
    parseSeq g (encSeq f xs ++ rest) = some (xs, rest) := by
  have hs : encSeq f xs ++ rest = encNat xs.length ++ ((xs.map f).flatten ++ rest) := by
    simp [encSeq]
  rw [parseSeq, hs, parseNat_enc]
  exact parseCount_enc f g h xs rest

theorem parseSvcState_enc (s : ServiceStateTag) (rest : List Nat) :
    parseSvcState (encSvcState s ++ rest) = some (s, rest) := by
  cases s <;> rfl

theorem parseStatusEntry_enc (p : Nat × List Event) (rest : List Nat) :
    parseStatusEntry (encStatusEntry p ++ rest) = some (p, rest) := by
  rw [parseStatusEntry]
  simp only [encStatusEntry, List.append_assoc, parseNat_enc,
    parseSeq_enc encEvent parseEvent parseEvent_enc]

theorem parseReq_enc (v : MasterRequest) (rest : List Nat) :
    parseReq (serializeReq v ++ rest) = some (v, rest) := by
  cases v with
  | Status n =>
      show (match parseBytes (encBytes n ++ rest) with
            | some (x, r2) => some (MasterRequest.Status x, r2)
            | none => none) = _
      rw [parseBytes_enc]
  | SPid n =>
      show (match parseBytes (encBytes n ++ rest) with
            | some (x, r2) => some (MasterRequest.SPid x, r2)
            | none => none) = _
      rw [parseBytes_enc]
  | Start n =>
      show (match parseBytes (encBytes n ++ rest) with
            | some (x, r2) => some (MasterRequest.Start x, r2)
            | none => none) = _
      rw [parseBytes_enc]
  | Pause n =>
      show (match parseBytes (encBytes n ++ rest) with
            | some (x, r2) => some (MasterRequest.Pause x, r2)
            | none => none) = _
      rw [parseBytes_enc]
  | Resume n =>
      show (match parseBytes (encBytes n ++ rest) with
            | some (x, r2) => some (MasterRequest.Resume x, r2)
            | none => none) = _
      rw [parseBytes_enc]
  | Reload n =>
      show (match parseBytes (encBytes n ++ rest) with
            | some (x, r2) => some (MasterRequest.Reload x, r2)
            | none => none) = _
      rw [parseBytes_enc]
  | Restart n =>
      show (match parseBytes (encBytes n ++ rest) with
            | some (x, r2) => some (MasterRequest.Restart x, r2)
            | none => none) = _
      rw [parseBytes_enc]
  | Stop n =>
      show (match parseBytes (encBytes n ++ rest) with
            | some (x, r2) => some (MasterRequest.Stop x, r2)
            | none => none) = _
      rw [parseBytes_enc]
  | _ => rfl

theorem parseResp_enc (v : MasterResponse) (rest : List Nat) :
    parseResp (serializeResp v ++ rest) = some (v, rest) := by
  cases v with
  | Pid i =>
      show (match parseInt (encInt i ++ rest) with
            | some (x, r2) => some (MasterResponse.Pid x, r2)
            | none => none) = _
      rw [parseInt_enc]
  | Version s =>
      show (match parseBytes (encBytes s ++ rest) with
            | some (x, r2) => some (MasterResponse.Version x, r2)
            | none => none) = _
      rw [parseBytes_enc]
  | ServiceStatus st ws =>
      have h : serializeResp (MasterResponse.ServiceStatus st ws) ++ rest =
          7 :: (encSvcState st ++ (encSeq encStatusEntry ws ++ rest)) := by
        simp [serializeResp]
      rw [h]
      show (match parseSvcState (encSvcState st ++ (encSeq encStatusEntry ws ++ rest)) with
            | some (s2, r2) =>
                match parseSeq parseStatusEntry r2 with
                | some (ws2, r3) => some (MasterResponse.ServiceStatus s2 ws2, r3)
                | none => none
            | none => none) = _
      rw [parseSvcState_enc]
      show (match parseSeq parseStatusEntry (encSeq encStatusEntry ws ++ rest) with
            | some (ws2, r3) => some (MasterResponse.ServiceStatus st ws2, r3)
            | none => none) = _
      rw [parseSeq_enc encStatusEntry parseStatusEntry parseStatusEntry_enc]
  | ServiceWorkerPids ps =>
      show (match parseSeq parseNat (encSeq encNat ps ++ rest) with
            | some (x, r2) => some (MasterResponse.ServiceWorkerPids x, r2)
            | none => none) = _
      rw [parseSeq_enc encNat parseNat parseNat_enc]
  | _ => rfl

/-! ## Helper lemmas about the worker machine -/

theorem specPidInvariant_all (s : WorkerState) : specPidInvariant s = true := by
  cases s <;> rfl

theorem fastRestartCheck_cfg (w : Worker) (err : ProcessError) (t now : Nat) :
    (w.fastRestartCheck err t now).cfg = w.cfg := by
  unfold Worker.fastRestartCheck
  split
  · split <;> rfl
  · rfl

theorem fastRestartCheck_state (w : Worker) (err : ProcessError) (t now : Nat) :
    (w.fastRestartCheck err t now).state = w.state := by
  unfold Worker.fastRestartCheck
  split
  · split <;> rfl
  · rfl

theorem fastRestartCheck_restarts (w : Worker) (err : ProcessError) (t now : Nat) :
    (w.fastRestartCheck err t now).restarts =
      if err = ProcessError.ExitCode 0 ∧ durationSecs t < now - w.started then 0
      else (w.restarts + 1) % 65536 := by
  unfold Worker.fastRestartCheck
  split
  · rename_i he
    split
    · rename_i hd
      simp [he, hd]
    · rename_i hd
      simp [he, hd]
  · rename_i he
    simp [he]

theorem fastRestartCheck_events (w : Worker) (err : ProcessError) (t now : Nat) :
    (w.fastRestartCheck err t now).events = w.events := by
  unfold Worker.fastRestartCheck
  split
  · split <;> rfl
  · rfl

theorem events_add_capacity (e : Events) (st : State) (r : Reason) (p : Option Nat)
    (t : Nat) : (e.add st r p t).capacity = e.capacity := rfl

theorem events_add_head (e : Events) (st : State) (r : Reason) (p : Option Nat) (t : Nat)
    (h : 0 < e.capacity) :
    ((e.add st r p t).entries).head? = some { time := t, state := st, reason := r, pid := p } := by
  unfold Events.add
  obtain ⟨c, es⟩ := e
  cases c with
  | zero => simp at h
  | succ k => simp [List.take_succ_cons]

/-- `Worker::exited` in `Reloading(n, o)` for the new process's pid, unfolded. -/
theorem exited_reloading_new (w : Worker) (n o fresh : ProcessInfo) (err : ProcessError)
    (now : Nat) (hs : w.state = WorkerState.Reloading n o) :
    w.exited n.pid err fresh now =
      (if (w.fastRestartCheck err 3 now).restarts < (w.fastRestartCheck err 3 now).cfg.restarts
       then
         ({ w.fastRestartCheck err 3 now with
              events := (w.fastRestartCheck err 3 now).events.add State.ReloadFailed
                (Reason.fromError err) (some n.pid) now,
              state := WorkerState.Reloading fresh o }, [Cmd.Spawn fresh.pid])
       else
         ({ w.fastRestartCheck err 3 now with
              events := ((w.fastRestartCheck err 3 now).events.add State.ReloadFailed
                (Reason.fromError err) (some n.pid) now).add State.Running
                Reason.RestoreAftreFailed (some o.pid) now,
              restore_from_fail := true,
              state := WorkerState.Running o }, [])) := by
  simp [Worker.exited, hs]

/-- `Worker::exited` in `Restarting(n, o)` for the new process's pid, unfolded. -/
theorem exited_restarting_new (w : Worker) (n o fresh : ProcessInfo) (err : ProcessError)
    (now : Nat) (hs : w.state = WorkerState.Restarting n o) :
    w.exited n.pid err fresh now =
      (if (w.fastRestartCheck err 3 now).restarts < (w.fastRestartCheck err 3 now).cfg.restarts
       then
         ({ w.fastRestartCheck err 3 now with
              events := (w.fastRestartCheck err 3 now).events.add State.RestartFailed
                (Reason.fromError err) (some n.pid) now,
              state := WorkerState.Restarting fresh o }, [Cmd.Spawn fresh.pid])
       else
         ({ w.fastRestartCheck err 3 now with
              events := ((w.fastRestartCheck err 3 now).events.add State.RestartFailed
                (Reason.fromError err) (some n.pid) now).add State.Running
                Reason.RestoreAftreFailed (some o.pid) now,
              restore_from_fail := true,
              state := WorkerState.Running o }, [])) := by
  simp [Worker.exited, hs]

/-- `Worker::exited` in `Starting(p)` for `p`'s own pid, unfolded. -/
theorem exited_starting_self (w : Worker) (p fresh : ProcessInfo) (err : ProcessError)
    (now : Nat) (hs : w.state = WorkerState.Starting p) :
    w.exited p.pid err fresh now =
      (if (w.fastRestartCheck err 10 now).restarts <
          (w.fastRestartCheck err 10 now).cfg.restarts
       then
         ({ w.fastRestartCheck err 10 now with
              events := ((w.fastRestartCheck err 10 now).events.add State.Failed
                (Reason.fromError err) (some p.pid) now).add State.Starting
                Reason.RestartFailedStartingWorker (some fresh.pid) now,
              state := WorkerState.Starting fresh },
          p.quit false ++ [Cmd.Spawn fresh.pid])
       else
         ({ w.fastRestartCheck err 10 now with
              events := (w.fastRestartCheck err 10 now).events.add State.Failed
                (Reason.fromError err) (some p.pid) now,
              state := WorkerState.Failed }, [])) := by
  simp [Worker.exited, hs, Worker.start]

/-! ## Claims -/

/-- C2: in every reachable state the number of child processes tracked in the
`WorkerState` variant is 0, 1, or 2, and it is 2 only in `Reloading`,
`Restarting`, or `StoppingOld`; every operation (start, loaded, reload, stop,
quit, pause, resume, message, exited) preserves this invariant. -/
theorem c2_pid_count_invariant (s : WorkerState) (w : Worker) (fresh : ProcessInfo)
    (reason : Reason) (pid now : Nat) (graceful : Bool) (msg : WorkerMessage)
    (err : ProcessError) :
    specPidInvariant s = true ∧
    specPidInvariant (w.start fresh reason now).1.state = true ∧
    specPidInvariant (w.loaded pid now).1.state = true ∧
    specPidInvariant (w.reload fresh graceful reason now).1.state = true ∧
    specPidInvariant (w.stop reason now).1.state = true ∧
    specPidInvariant (w.quit reason now).1.state = true ∧
    specPidInvariant (w.pause reason now).1.state = true ∧
    specPidInvariant (w.resume reason now).1.state = true ∧
    specPidInvariant (w.message pid msg fresh now).1.state = true ∧
    specPidInvariant (w.exited pid err fresh now).1.state = true :=
  ⟨specPidInvariant_all _, specPidInvariant_all _, specPidInvariant_all _,
   specPidInvariant_all _, specPidInvariant_all _, specPidInvariant_all _,
   specPidInvariant_all _, specPidInvariant_all _, specPidInvariant_all _,
   specPidInvariant_all _⟩

/-- C1: the `loaded(pid)` event follows the transition table: in `Starting(c)`
with `pid = c.pid` it sends start to `c` and moves to `Running(c)`; in
`Reloading(n, o)` with `pid = n.pid` it sends stop to `o`, start to `n`, and
moves to `StoppingOld(n, o)`; in `Restarting(n, o)` with `pid = n.pid` it
sends `quit(graceful = true)` to `o`, start to `n`, and moves to
`StoppingOld(n, o)`; in every other state, or when the pid does not match the
tracked new process, the worker is unchanged. -/
theorem c1_loaded_matches_table (w : Worker) (pid now : Nat) :
    (∀ c, w.state = WorkerState.Starting c → c.pid = pid → c.addr = true →
       (w.loaded pid now).1.state = WorkerState.Running c ∧
       (w.loaded pid now).2 = [Cmd.StartProcess c.pid]) ∧
    (∀ n o, w.state = WorkerState.Reloading n o → n.pid = pid → n.addr = true →
       o.addr = true →
       (w.loaded pid now).1.state = WorkerState.StoppingOld n o ∧
       (w.loaded pid now).2 = [Cmd.StopProcess o.pid, Cmd.StartProcess n.pid]) ∧
    (∀ n o, w.state = WorkerState.Restarting n o → n.pid = pid → n.addr = true →
       o.addr = true →
       (w.loaded pid now).1.state = WorkerState.StoppingOld n o ∧
       (w.loaded pid now).2 = [Cmd.QuitProcess o.pid true, Cmd.StartProcess n.pid]) ∧
    ((match w.state with
      | WorkerState.Starting c => c.pid ≠ pid
      | WorkerState.Reloading n _ => n.pid ≠ pid
      | WorkerState.Restarting n _ => n.pid ≠ pid
      | _ => True) →
       (w.loaded pid now).1 = w ∧ (w.loaded pid now).2 = []) := by
  refine ⟨?_, ?_, ?_, ?_⟩
  · intro c hc hp ha
    simp [Worker.loaded, hc, hp, ProcessInfo.start, ha]
  · intro n o hc hp hna hoa
    simp [Worker.loaded, hc, hp, ProcessInfo.start, ProcessInfo.stop, hna, hoa]
  · intro n o hc hp hna hoa
    simp [Worker.loaded, hc, hp, ProcessInfo.start, ProcessInfo.quit, hna, hoa]
  · intro hmis
    obtain ⟨cfg, st, ev, rff, sd, rs⟩ := w
    cases st <;> simp_all [Worker.loaded]

/-- C1 witness: a concrete worker in `Starting` with the matching pid takes
the `Running` transition and emits the start command. -/
theorem c1_loaded_matches_table_witness :
    ((baseWorker (WorkerState.Starting procA)).loaded 11 5).1.state =
      WorkerState.Running procA ∧
    ((baseWorker (WorkerState.Starting procA)).loaded 11 5).2 = [Cmd.StartProcess 11] := by
  have h := (c1_loaded_matches_table (baseWorker (WorkerState.Starting procA)) 11 5).1
    procA rfl rfl rfl
  exact ⟨h.1, h.2⟩

/-- C4: a `stop` arriving mid-reload collapses the overlap onto the process
that was serving: in `Reloading(n, o)` or `Restarting(n, o)` it sends
`quit(graceful = true)` to the new process `n`, a graceful stop to the old
process `o`, and transitions to `Stopping(o)`; in `StoppingOld(c, o)` it sends
`quit(graceful = true)` to `o`, a graceful stop to `c`, and transitions to
`Stopping(c)`. -/
theorem c4_stop_collapses_overlap (w : Worker) (reason : Reason) (now : Nat) :
    (∀ n o, w.state = WorkerState.Reloading n o → n.addr = true → o.addr = true →
       (w.stop reason now).1.state = WorkerState.Stopping o ∧
       (w.stop reason now).2 = [Cmd.QuitProcess n.pid true, Cmd.StopProcess o.pid]) ∧
    (∀ n o, w.state = WorkerState.Restarting n o → n.addr = true → o.addr = true →
       (w.stop reason now).1.state = WorkerState.Stopping o ∧
       (w.stop reason now).2 = [Cmd.QuitProcess n.pid true, Cmd.StopProcess o.pid]) ∧
    (∀ c o, w.state = WorkerState.StoppingOld c o → c.addr = true → o.addr = true →
       (w.stop reason now).1.state = WorkerState.Stopping c ∧
       (w.stop reason now).2 = [Cmd.QuitProcess o.pid true, Cmd.StopProcess c.pid]) := by
  refine ⟨?_, ?_, ?_⟩
  · intro n o hs hna hoa
    simp [Worker.stop, hs, ProcessInfo.quit, ProcessInfo.stop, hna, hoa]
  · intro n o hs hna hoa
    simp [Worker.stop, hs, ProcessInfo.quit, ProcessInfo.stop, hna, hoa]
  · intro c o hs hca hoa
    simp [Worker.stop, hs, ProcessInfo.quit, ProcessInfo.stop, hca, hoa]

/-- C4 witness: a concrete worker in `Reloading` collapses onto the old
process on `stop`. -/
theorem c4_stop_collapses_overlap_witness :
    ((baseWorker (WorkerState.Reloading procA procB)).stop Reason.None 7).1.state =
      WorkerState.Stopping procB ∧
    ((baseWorker (WorkerState.Reloading procA procB)).stop Reason.None 7).2 =
      [Cmd.QuitProcess 11 true, Cmd.StopProcess 22] := by
  have h := (c4_stop_collapses_overlap (baseWorker (WorkerState.Reloading procA procB))
    Reason.None 7).1 procA procB rfl rfl rfl
  exact ⟨h.1, h.2⟩

/-- C3: in `Reloading(n, o)`, when `exited(n.pid, err)` arrives and the
restarts counter, after the increment-or-reset step, has reached the limit
`R`, the supervisor sets `restore_from_fail`, appends a `Running` event with
reason `RestoreAftreFailed` carrying the old pid, and reverts to `Running(o)`;
below the limit it spawns a fresh process and stays `Reloading` with the same
old process. -/
theorem c3_reload_exhaustion_restores_old (w : Worker) (n o fresh : ProcessInfo)
    (err : ProcessError) (now : Nat) (hs : w.state = WorkerState.Reloading n o)
    (hcap : 0 < w.events.capacity) :
    (w.cfg.restarts ≤ (w.fastRestartCheck err 3 now).restarts →
       (w.exited n.pid err fresh now).1.restore_from_fail = true ∧
       (w.exited n.pid err fresh now).1.state = WorkerState.Running o ∧
       (w.exited n.pid err fresh now).1.events.entries.head? =
         some { time := now, state := State.Running, reason := Reason.RestoreAftreFailed,
                pid := some o.pid } ∧
       (w.exited n.pid err fresh now).2 = []) ∧
    ((w.fastRestartCheck err 3 now).restarts < w.cfg.restarts →
       (w.exited n.pid err fresh now).1.state = WorkerState.Reloading fresh o ∧
       (w.exited n.pid err fresh now).1.restarts = (w.fastRestartCheck err 3 now).restarts ∧
       (w.exited n.pid err fresh now).2 = [Cmd.Spawn fresh.pid]) := by
  have hcfg := fastRestartCheck_cfg w err 3 now
  have hev := fastRestartCheck_events w err 3 now
  rw [exited_reloading_new w n o fresh err now hs]
  constructor
  · intro hge
    rw [if_neg (by rw [hcfg]; omega)]
    refine ⟨rfl, rfl, ?_, rfl⟩
    exact events_add_head _ _ _ _ _ (by rw [events_add_capacity, hev]; exact hcap)
  · intro hlt
    rw [if_pos (by rw [hcfg]; exact hlt)]
    exact ⟨rfl, rfl, rfl⟩

/-- C3 witness: a concrete mid-reload worker with exhausted budget restores
the old process. -/
theorem c3_reload_exhaustion_restores_old_witness :
    wExhausted.cfg.restarts ≤
      (wExhausted.fastRestartCheck (ProcessError.ExitCode 1) 3 9).restarts ∧
    (wExhausted.exited 11 (ProcessError.ExitCode 1) procC 9).1.restore_from_fail = true ∧
    (wExhausted.exited 11 (ProcessError.ExitCode 1) procC 9).1.state =
      WorkerState.Running procB := by
  have h := (c3_reload_exhaustion_restores_old wExhausted procA procB procC
    (ProcessError.ExitCode 1) 9 rfl (by decide)).1 (by decide)
  exact ⟨by decide, h.1, h.2.1⟩

/-- C9: `is_failed()` is true exactly when the state is `Failed`, or the
state is `Running` and `restore_from_fail` is set; consequently a slot
restored to its old process after an exhausted reload reports itself failed
even though a child is running. -/
theorem c9_is_failed_reports_restored (w : Worker) :
    (w.is_failed = true ↔ (w.state = WorkerState.Failed ∨
       ∃ p, w.state = WorkerState.Running p ∧ w.restore_from_fail = true)) ∧
    (∀ n o fresh err now, w.state = WorkerState.Reloading n o →
       w.cfg.restarts ≤ (w.fastRestartCheck err 3 now).restarts →
       (w.exited n.pid err fresh now).1.is_failed = true ∧
       (w.exited n.pid err fresh now).1.is_running = true) := by
  constructor
  · obtain ⟨cfg, st, ev, rff, sd, rs⟩ := w
    cases st <;> simp [Worker.is_failed]
  · intro n o fresh err now hs hge
    rw [exited_reloading_new w n o fresh err now hs]
    rw [if_neg (by rw [fastRestartCheck_cfg]; omega)]
    exact ⟨rfl, rfl⟩

/-- C9 witness: the restored worker is both failed and running. -/
theorem c9_is_failed_reports_restored_witness :
    (wExhausted.exited 11 (ProcessError.ExitCode 1) procC 9).1.is_failed = true ∧
    (wExhausted.exited 11 (ProcessError.ExitCode 1) procC 9).1.is_running = true := by
  exact (c9_is_failed_reports_restored wExhausted).2 procA procB procC
    (ProcessError.ExitCode 1) 9 rfl (by decide)

/-- C7: in `Running(c)`, an exit of `c` with `StartupTimeout` (a post-load
liveness miss being classified the same way) sets `restore_from_fail` and
triggers a hard reload keeping the old process as fallback; any other exit
error force-quits the process, resets `started`, passes through `Initial`,
and immediately starts a new process with reason
`RestartFailedRunningWorker`. -/
theorem c7_running_exit_policy (w : Worker) (c fresh : ProcessInfo) (err : ProcessError)
    (now : Nat) (hs : w.state = WorkerState.Running c) (ha : c.addr = true)
    (hcap : 0 < w.events.capacity) :
    (err = ProcessError.StartupTimeout →
       (w.exited c.pid err fresh now).1.restore_from_fail = true ∧
       (w.exited c.pid err fresh now).1.state = WorkerState.Restarting fresh c ∧
       (w.exited c.pid err fresh now).2 = [Cmd.Spawn fresh.pid]) ∧
    heartbeatMissClassified = ProcessError.StartupTimeout ∧
    (err ≠ ProcessError.StartupTimeout →
       (w.exited c.pid err fresh now).1.state = WorkerState.Starting fresh ∧
       (w.exited c.pid err fresh now).1.started = now ∧
       (w.exited c.pid err fresh now).2 = [Cmd.QuitProcess c.pid false, Cmd.Spawn fresh.pid] ∧
       (w.exited c.pid err fresh now).1.events.entries.head? =
         some { time := now, state := State.Starting,
                reason := Reason.RestartFailedRunningWorker, pid := some fresh.pid }) := by
  refine ⟨?_, rfl, ?_⟩
  · intro he
    subst he
    simp [Worker.exited, hs, Worker.reload]
  · intro hne
    have h1 : w.exited c.pid err fresh now =
        ({ w with started := now,
                  state := WorkerState.Starting fresh,
                  events := (w.events.add State.Stopped (Reason.fromError err)
                    (some c.pid) now).add State.Starting Reason.RestartFailedRunningWorker
                    (some fresh.pid) now },
         [Cmd.QuitProcess c.pid false, Cmd.Spawn fresh.pid]) := by
      simp [Worker.exited, hs, hne, Worker.start, ProcessInfo.quit, ha]
    rw [h1]
    refine ⟨rfl, rfl, rfl, ?_⟩
    exact events_add_head _ _ _ _ _ (by rw [events_add_capacity]; exact hcap)

/-- C7 witness: both branches at concrete inputs. -/
theorem c7_running_exit_policy_witness :
    ((baseWorker (WorkerState.Running procA)).exited 11 ProcessError.StartupTimeout
      procC 9).1.state = WorkerState.Restarting procC procA ∧
    ((baseWorker (WorkerState.Running procA)).exited 11 (ProcessError.Signaled 9)
      procC 9).2 = [Cmd.QuitProcess 11 false, Cmd.Spawn 33] := by
  constructor
  · exact ((c7_running_exit_policy (baseWorker (WorkerState.Running procA)) procA procC
      ProcessError.StartupTimeout 9 rfl rfl (by decide)).1 rfl).2.1
  · exact ((c7_running_exit_policy (baseWorker (WorkerState.Running procA)) procA procC
      (ProcessError.Signaled 9) 9 rfl rfl (by decide)).2.2 (by decide)).2.2.1

/-- C5 counterexample: the claim says any exit more than 10 seconds after
`started` resets the counter regardless of the exit's error classification;
but a worker in `Starting` whose child exits with `ExitCode(1)` twenty
seconds after `started` gets its counter incremented to 1, not reset. -/
theorem c5_counterexample :
    durationSecs 10 < durationSecs 20 - (baseWorker (WorkerState.Starting procA)).started ∧
    ((baseWorker (WorkerState.Starting procA)).exited 11 (ProcessError.ExitCode 1) procC
      (durationSecs 20)).1.restarts = 1 := by
  exact ⟨by decide, by decide⟩

/-- C5 (amended): the restarts counter only ever stays, is incremented, or is
reset to 0; it is reset exactly on a successful `loaded`, on a `reload`
applied in `Failed` or `Stopped`, and on an exit of the tracked
starting / new process with `ExitCode(0)` more than 10 seconds (`Starting`)
or 3 seconds (`Reloading` / `Restarting`) after `started`; every other
operation leaves it unchanged, except the new-process-died case of
`StoppingOld`, which increments it. -/
theorem c5_restarts_discipline (w : Worker) (fresh : ProcessInfo) (reason : Reason)
    (pid now : Nat) (graceful : Bool) (msg : WorkerMessage) (err : ProcessError) :
    (w.start fresh reason now).1.restarts = w.restarts ∧
    (w.stop reason now).1.restarts = w.restarts ∧
    (w.quit reason now).1.restarts = w.restarts ∧
    (w.pause reason now).1.restarts = w.restarts ∧
    (w.resume reason now).1.restarts = w.restarts ∧
    (w.message pid msg fresh now).1.restarts = w.restarts ∧
    ((w.loaded pid now).1.restarts =
      match w.state with
      | WorkerState.Starting p => if p.pid = pid then 0 else w.restarts
      | WorkerState.Reloading p _ => if p.pid = pid then 0 else w.restarts
      | WorkerState.Restarting p _ => if p.pid = pid then 0 else w.restarts
      | _ => w.restarts) ∧
    ((w.reload fresh graceful reason now).1.restarts =
      match w.state with
      | WorkerState.Failed => 0
      | WorkerState.Stopped => 0
      | _ => w.restarts) ∧
    ((w.exited pid err fresh now).1.restarts =
      match w.state with
      | WorkerState.Starting p =>
          if p.pid = pid then
            if err = ProcessError.ExitCode 0 ∧ durationSecs 10 < now - w.started then 0
            else (w.restarts + 1) % 65536
          else w.restarts
      | WorkerState.Reloading p _ =>
          if p.pid = pid then
            if err = ProcessError.ExitCode 0 ∧ durationSecs 3 < now - w.started then 0
            else (w.restarts + 1) % 65536
          else w.restarts
      | WorkerState.Restarting p _ =>
          if p.pid = pid then
            if err = ProcessError.ExitCode 0 ∧ durationSecs 3 < now - w.started then 0
            else (w.restarts + 1) % 65536
          else w.restarts
      | WorkerState.StoppingOld p _ =>
          if p.pid = pid then (w.restarts + 1) % 65536 else w.restarts
      | _ => w.restarts) := by
  obtain ⟨cfg, st, ev, rff, sd, rs⟩ := w
  refine ⟨?_, ?_, ?_, ?_, ?_, ?_, ?_, ?_, ?_⟩
  · cases st <;> rfl
  · cases st <;> rfl
  · cases st <;> rfl
  · cases st <;> rfl
  · cases st <;> rfl
  · cases st with
    | Running p =>
        by_cases hp : p.pid == pid <;>
          simp only [Worker.message, hp, Bool.false_eq_true, if_true, if_false] <;>
          cases msg <;> simp [Worker.reload]
    | _ => rfl
  · cases st <;> simp only [Worker.loaded] <;> first | rfl | (split <;> rfl)
  · cases st <;> simp only [Worker.reload, Worker.start] <;> first | rfl | (split <;> rfl)
  · cases st with
    | Initial => rfl
    | Failed => rfl
    | Stopped => rfl
    | Running p =>
        by_cases hp : p.pid = pid
        · by_cases he : err = ProcessError.StartupTimeout
          · simp [Worker.exited, hp, he, Worker.reload]
          · simp [Worker.exited, hp, he, Worker.start]
        · simp [Worker.exited, hp]
    | Starting p =>
        by_cases hp : p.pid = pid
        · rw [← hp, exited_starting_self _ p fresh err now rfl]
          simp only [if_pos rfl]
          split <;> simp [fastRestartCheck_restarts]
        · simp [Worker.exited, hp]
    | Reloading p old =>
        by_cases hp : p.pid = pid
        · rw [← hp, exited_reloading_new _ p old fresh err now rfl]
          simp only [if_pos rfl]
          split <;> simp [fastRestartCheck_restarts]
        · by_cases ho : old.pid = pid <;> simp [Worker.exited, hp, ho]
    | Restarting p old =>
        by_cases hp : p.pid = pid
        · rw [← hp, exited_restarting_new _ p old fresh err now rfl]
          simp only [if_pos rfl]
          split <;> simp [fastRestartCheck_restarts]
        · by_cases ho : old.pid = pid <;> simp [Worker.exited, hp, ho]
    | StoppingOld p old =>
        by_cases hp : p.pid = pid
        · simp [Worker.exited, hp, Worker.start]
        · by_cases ho : old.pid = pid <;> simp [Worker.exited, hp, ho]
    | Stopping p =>
        by_cases hp : p.pid = pid <;> simp [Worker.exited, hp]

/-- C6 counterexample: the claim says automatic respawn after a child exit
happens only while `restarts < R`; but a worker in `StoppingOld` with no
remaining budget (`restarts = 0`, `R = 0`) still respawns when the new
process dies — the state becomes `Starting(fresh)` and a spawn is emitted. -/
theorem c6_counterexample :
    ¬ wNoBudget.restarts < wNoBudget.cfg.restarts ∧
    (wNoBudget.exited 11 (ProcessError.ExitCode 1) procC 5).1.state =
      WorkerState.Starting procC ∧
    (wNoBudget.exited 11 (ProcessError.ExitCode 1) procC 5).2 =
      [Cmd.QuitProcess 22 false, Cmd.Spawn 33] := by
  exact ⟨by decide, by decide, by decide⟩

/-- C6 (amended): the `restarts < R` gate applies to automatic respawn only in
`Starting`, `Reloading` and `Restarting`; the new-process-died case of
`StoppingOld` and every non-timeout exit in `Running` respawn unconditionally;
among operator commands applied in `Failed` or `Stopped`, only `reload`
resets the restarts counter before restarting — `start` spawns with the
counter unchanged (it is reset on the subsequent successful `loaded`) and
`stop` moves to `Stopped` with the counter unchanged. -/
theorem c6_restart_budget_gating (w : Worker) (fresh : ProcessInfo) (err : ProcessError)
    (reason : Reason) (graceful : Bool) (now : Nat) :
    (∀ p, w.state = WorkerState.Starting p →
       ((w.exited p.pid err fresh now).1.state = WorkerState.Failed ↔
          w.cfg.restarts ≤ (w.fastRestartCheck err 10 now).restarts) ∧
       ((w.fastRestartCheck err 10 now).restarts < w.cfg.restarts →
          (w.exited p.pid err fresh now).1.state = WorkerState.Starting fresh)) ∧
    (∀ p old, w.state = WorkerState.Reloading p old →
       ((w.fastRestartCheck err 3 now).restarts < w.cfg.restarts →
          (w.exited p.pid err fresh now).1.state = WorkerState.Reloading fresh old) ∧
       (w.cfg.restarts ≤ (w.fastRestartCheck err 3 now).restarts →
          (w.exited p.pid err fresh now).1.state = WorkerState.Running old ∧
          (w.exited p.pid err fresh now).2 = [])) ∧
    (∀ p old, w.state = WorkerState.Restarting p old →
       ((w.fastRestartCheck err 3 now).restarts < w.cfg.restarts →
          (w.exited p.pid err fresh now).1.state = WorkerState.Restarting fresh old) ∧
       (w.cfg.restarts ≤ (w.fastRestartCheck err 3 now).restarts →
          (w.exited p.pid err fresh now).1.state = WorkerState.Running old ∧
          (w.exited p.pid err fresh now).2 = [])) ∧
    (∀ p old, w.state = WorkerState.StoppingOld p old →
       (w.exited p.pid err fresh now).1.state = WorkerState.Starting fresh) ∧
    (∀ p, w.state = WorkerState.Running p → err ≠ ProcessError.StartupTimeout →
       (w.exited p.pid err fresh now).1.state = WorkerState.Starting fresh) ∧
    (w.state = WorkerState.Failed ∨ w.state = WorkerState.Stopped →
       (w.reload fresh graceful reason now).1.restarts = 0 ∧
       (w.reload fresh graceful reason now).1.state = WorkerState.Starting fresh ∧
       (w.start fresh reason now).1.restarts = w.restarts ∧
       (w.start fresh reason now).1.state = WorkerState.Starting fresh ∧
       (w.stop reason now).1.restarts = w.restarts ∧
       (w.stop reason now).1.state = WorkerState.Stopped) := by
  have hcfg10 := fastRestartCheck_cfg w err 10 now
  have hcfg3 := fastRestartCheck_cfg w err 3 now
  refine ⟨?_, ?_, ?_, ?_, ?_, ?_⟩
  · intro p hs
    rw [exited_starting_self w p fresh err now hs]
    constructor
    · constructor
      · intro hfail
        by_contra hlt
        rw [if_pos (by rw [hcfg10]; omega)] at hfail
        exact absurd hfail (by simp)
      · intro hge
        rw [if_neg (by rw [hcfg10]; omega)]
    · intro hlt
      rw [if_pos (by rw [hcfg10]; omega)]
  · intro p old hs
    rw [exited_reloading_new w p old fresh err now hs]
    constructor
    · intro hlt
      rw [if_pos (by rw [hcfg3]; omega)]
    · intro hge
      rw [if_neg (by rw [hcfg3]; omega)]
      exact ⟨rfl, rfl⟩
  · intro p old hs
    rw [exited_restarting_new w p old fresh err now hs]
    constructor
    · intro hlt
      rw [if_pos (by rw [hcfg3]; omega)]
    · intro hge
      rw [if_neg (by rw [hcfg3]; omega)]
      exact ⟨rfl, rfl⟩
  · intro p old hs
    simp [Worker.exited, hs, Worker.start]
  · intro p hs hne
    simp [Worker.exited, hs, hne, Worker.start]
  · intro hs
    cases hs with
    | inl hf => simp [Worker.reload, Worker.start, Worker.stop, hf]
    | inr hst => simp [Worker.reload, Worker.start, Worker.stop, hst]

/-- C6 witness: a concrete worker in `Starting` below the budget respawns,
and one in `Reloading` at the budget restores the old process. -/
theorem c6_restart_budget_gating_witness :
    (((baseWorker (WorkerState.Starting procA)).fastRestartCheck (ProcessError.ExitCode 1)
        10 0).restarts < (baseWorker (WorkerState.Starting procA)).cfg.restarts ∧
      ((baseWorker (WorkerState.Starting procA)).exited 11 (ProcessError.ExitCode 1)
        procC 0).1.state = WorkerState.Starting procC) ∧
    (wExhausted.cfg.restarts ≤
        (wExhausted.fastRestartCheck (ProcessError.ExitCode 1) 3 9).restarts ∧
      (wExhausted.exited 11 (ProcessError.ExitCode 1) procC 9).1.state =
        WorkerState.Running procB) := by
  constructor
  · refine ⟨by decide, ?_⟩
    exact ((c6_restart_budget_gating (baseWorker (WorkerState.Starting procA)) procC
      (ProcessError.ExitCode 1) Reason.None true 0).1 procA rfl).2 (by decide)
  · refine ⟨by decide, ?_⟩
    exact (((c6_restart_budget_gating wExhausted procC (ProcessError.ExitCode 1)
      Reason.None true 9).2.1 procA procB rfl).2 (by decide)).1

theorem serializeReq_reqBig : serializeReq reqBig =
    6 :: ((List.replicate 65536 1 ++ [0]) ++ List.replicate 65536 0) := by
  show 6 :: encBytes (List.replicate 65536 0) = _
  rw [encBytes, encNat, List.length_replicate]

theorem reqBig_len : (serializeReq reqBig).length = 131074 := by
  rw [serializeReq_reqBig, List.length_cons, List.length_append, List.length_append,
    List.length_replicate, List.length_replicate, List.length_singleton]

theorem decodeRequest_err (src payload rest : List Nat)
    (h : decodeFrame src = some (payload, rest)) (hp : parseReq payload = none) :
    decodeRequest src = Except.error () := by
  unfold decodeRequest
  rw [h]
  show (match parseReq payload with
        | some (v, []) => Except.ok (some (v, rest))
        | _ => Except.error ()) = Except.error ()
  rw [hp]

theorem decodeFrame_frameBytes (payload extra : List Nat) (h : payload.length ≤ 65535) :
    decodeFrame (frameBytes payload ++ extra) = some (payload, extra) := by
  have hmod : payload.length % 65536 = payload.length := Nat.mod_eq_of_lt (by omega)
  have hsize : 256 * (payload.length % 65536 / 256) + payload.length % 65536 % 256 =
      payload.length := by
    rw [Nat.div_add_mod, hmod]
  show decodeFrame ((payload.length % 65536) / 256 :: (payload.length % 65536) % 256 ::
    (payload ++ extra)) = some (payload, extra)
  simp only [decodeFrame, hsize]
  rw [if_pos (by simp)]
  rw [List.take_left, List.drop_left]

/-- C10: `ClientTransportCodec::encode` writes the length prefix as the
payload length cast to `u16` with no bounds check: the prefix always equals
the length modulo 2 to the 16th; it equals the true length exactly when the
payload is at most 65535 bytes, while for longer payloads the prefix no
longer matches even though every payload byte is still appended. -/
theorem c10_encode_truncates_u16 (msg : MasterRequest) :
    encodeRequest msg =
      ((serializeReq msg).length % 65536) / 256 ::
        ((serializeReq msg).length % 65536) % 256 :: serializeReq msg ∧
    prefixVal (encodeRequest msg) = (serializeReq msg).length % 65536 ∧
    ((serializeReq msg).length ≤ 65535 →
       prefixVal (encodeRequest msg) = (serializeReq msg).length) ∧
    (65535 < (serializeReq msg).length →
       prefixVal (encodeRequest msg) ≠ (serializeReq msg).length ∧
       (encodeRequest msg).drop 2 = serializeReq msg) := by
  have hp : prefixVal (encodeRequest msg) = (serializeReq msg).length % 65536 :=
    Nat.div_add_mod _ 256
  refine ⟨rfl, hp, fun h => ?_, fun h => ⟨?_, rfl⟩⟩
  · rw [hp]
    omega
  · rw [hp]
    omega

/-- C10 witness: a short request keeps its true length in the prefix; the
oversized request `reqBig` does not. -/
theorem c10_encode_truncates_u16_witness :
    ((serializeReq MasterRequest.Ping).length ≤ 65535 ∧
      prefixVal (encodeRequest MasterRequest.Ping) =
        (serializeReq MasterRequest.Ping).length) ∧
    (65535 < (serializeReq reqBig).length ∧
      prefixVal (encodeRequest reqBig) ≠ (serializeReq reqBig).length) := by
  constructor
  · exact ⟨by decide, (c10_encode_truncates_u16 MasterRequest.Ping).2.2.1 (by decide)⟩
  · have hlen := reqBig_len
    exact ⟨by omega, ((c10_encode_truncates_u16 reqBig).2.2.2 (by omega)).1⟩

/-- C8 counterexample: the claim's roundtrip fails for a request whose
serialization exceeds 65535 bytes — the truncated length prefix makes the
decoder split the frame wrongly and reject the payload, so decoding the
encoding of `reqBig` is a decode error, not `reqBig`. -/
theorem c8_counterexample :
    decodeRequest (encodeRequest reqBig) = Except.error () ∧
    decodeRequest (encodeRequest reqBig) ≠ Except.ok (some (reqBig, [])) := by
  have hser := serializeReq_reqBig
  have hlen : (serializeReq reqBig).length = 131074 := reqBig_len
  have hframe : encodeRequest reqBig = 0 :: 2 :: serializeReq reqBig := by
    unfold encodeRequest frameBytes
    rw [hlen]
  have htake : (serializeReq reqBig).take 2 = [6, 1] := by
    rw [hser]
    rw [show List.replicate 65536 (1 : Nat) = 1 :: List.replicate 65535 1 from
      List.replicate_succ 1 65535]
    rfl
  have hdec : decodeFrame (encodeRequest reqBig) =
      some ((serializeReq reqBig).take 2, (serializeReq reqBig).drop 2) := by
    rw [hframe]
    simp only [decodeFrame]
    rw [if_pos (by rw [hlen]; norm_num)]
  have hdec2 : decodeFrame (encodeRequest reqBig) =
      some ([6, 1], (serializeReq reqBig).drop 2) := by
    rw [hdec, htake]
  have hparse : parseReq [6, 1] = none := rfl
  have hmain : decodeRequest (encodeRequest reqBig) = Except.error () :=
    decodeRequest_err _ _ _ hdec2 hparse
  exact ⟨hmain, by rw [hmain]; simp⟩

/-- C8 (amended): for every control-plane message whose serialization fits
the 16-bit length prefix (at most 65535 bytes), decoding the encoding
followed by any extra bytes yields the message back and consumes exactly the
frame; the frame layer returns "need more" with fewer than 2 buffered bytes
or fewer than N + 2 bytes after the big-endian length N, and on success
consumes exactly N + 2 bytes, never consuming past the frame. -/
theorem c8_codec_framing_roundtrip :
    (∀ (v : MasterRequest) (extra : List Nat), (serializeReq v).length ≤ 65535 →
       decodeRequest (encodeRequest v ++ extra) = Except.ok (some (v, extra))) ∧
    (∀ (v : MasterResponse) (extra : List Nat), (serializeResp v).length ≤ 65535 →
       decodeResponse (encodeResponse v ++ extra) = Except.ok (some (v, extra))) ∧
    (∀ src : List Nat, src.length < 2 → decodeFrame src = none) ∧
    (∀ (b0 b1 : Nat) (rest : List Nat), rest.length < 256 * b0 + b1 →
       decodeFrame (b0 :: b1 :: rest) = none) ∧
    (∀ (b0 b1 : Nat) (rest : List Nat), 256 * b0 + b1 ≤ rest.length →
       decodeFrame (b0 :: b1 :: rest) =
         some (rest.take (256 * b0 + b1), rest.drop (256 * b0 + b1))) := by
  refine ⟨?_, ?_, ?_, ?_, ?_⟩
  · intro v extra h
    have hp : parseReq (serializeReq v) = some (v, []) := by
      have h2 := parseReq_enc v []
      simpa using h2
    simp only [decodeRequest, encodeRequest, decodeFrame_frameBytes _ extra h, hp]
  · intro v extra h
    have hp : parseResp (serializeResp v) = some (v, []) := by
      have h2 := parseResp_enc v []
      simpa using h2
    simp only [decodeResponse, encodeResponse, decodeFrame_frameBytes _ extra h, hp]
  · intro src h
    match src with
    | [] => rfl
    | [a] => rfl
    | a :: b :: t =>
        exact absurd h (by simp)
  · intro b0 b1 rest h
    simp only [decodeFrame]
    rw [if_neg (by omega)]
  · intro b0 b1 rest h
    simp only [decodeFrame]
    rw [if_pos h]

/-- C8 witness: concrete roundtrips and a concrete partial buffer. -/
theorem c8_codec_framing_roundtrip_witness :
    ((serializeReq MasterRequest.Ping).length ≤ 65535 ∧
      decodeRequest (encodeRequest MasterRequest.Ping ++ [7]) =
        Except.ok (some (MasterRequest.Ping, [7]))) ∧
    ((serializeResp MasterResponse.Pong).length ≤ 65535 ∧
      decodeResponse (encodeResponse MasterResponse.Pong ++ []) =
        Except.ok (some (MasterResponse.Pong, []))) ∧
    ([(42 : Nat)].length < 2 ∧ decodeFrame [42] = none) := by
  refine ⟨⟨by decide, ?_⟩, ⟨by decide, ?_⟩, ⟨by decide, ?_⟩⟩
  · exact c8_codec_framing_roundtrip.1 MasterRequest.Ping [7] (by decide)
  · exact c8_codec_framing_roundtrip.2.1 MasterResponse.Pong [] (by decide)
  · exact c8_codec_framing_roundtrip.2.2.1 [42] (by decide)

end Fectl
